import Mathlib

/-!
Shallow embedding of the x402 Vara facilitator endpoints
(`src/lib/varaVerify.ts`): the `POST /api/facilitator/verify` and
`POST /api/facilitator/settle` handlers.

The handlers are validation-and-dispatch glue around external collaborators
(`useApi`, `balanceOf`, `verifyWithApi`, `settleWithApi` from the `x402-vara`
package, plus the Node platform primitives `Buffer.from(_, 'base64')`,
`JSON.parse` and `BigInt`).  The collaborators and the two platform decoding
steps are modelled as parameters gathered in an `Env` record, each returning
`Except`/`Option` to model a JavaScript call that either returns or throws.
`BigInt(string)` is embedded concretely (decimal strings, the only form the
repository exercises); the constants `X402_VERSION`, `X402_SCHEME` and
`validVaraNetworks` imported from `x402-vara/lib` are parameters in a
`Config` record.

JavaScript semantics embedded explicitly:
  * a body field that may be absent (`undefined`) is an `Option`;
  * `!x` on a string field is falsiness: absent, `null`, or `""`;
  * reading a property of `undefined`/`null` throws a `TypeError`, which the
    handler's outer `catch` turns into an HTTP 500 response;
  * template interpolation of an absent number renders `"undefined"`, of a
    `BigInt` renders its exact decimal digits, and of a string array renders
    the comma-joined elements.

Each handler returns its HTTP response (status, JSON body, whether the
elapsed-time header was set) together with the list of external calls it
performed, so that "the delegated call does not occur" is a statement about
the returned call trace.
-/

namespace X402Vara

/-- Server-declared payment terms (`paymentRequirements` in the request
body), as used by the handlers. -/
structure PaymentRequirements where
  scheme : String
  network : String
  asset : String
  maxAmountRequired : String
  payTo : String
deriving Repr, DecidableEq

/-- The transaction object inside the decoded payment payload; the handlers
only ever read its `address` field. -/
structure Transaction where
  address : String
deriving Repr, DecidableEq

/-- The inner `payload` object of a decoded `PaymentPayload`: `signature` and
`transaction`, each possibly absent or null (`none`). -/
structure PayloadInner where
  signature : Option String
  transaction : Option Transaction
deriving Repr, DecidableEq

/-- Client payment payload, produced by base64+JSON decoding the
`paymentHeader`.  `payload` may be absent (`none`), in which case reading a
property of it throws. -/
structure PaymentPayload where
  x402Version : Option Int
  scheme : String
  network : String
  asset : String
  payload : Option PayloadInner
deriving Repr, DecidableEq

/-- Parsed JSON request body of both endpoints:
`{x402Version, paymentHeader, paymentRequirements}`, every field possibly
absent. -/
structure RequestBody where
  x402Version : Option Int
  paymentHeader : Option String
  paymentRequirements : Option PaymentRequirements
deriving Repr, DecidableEq

/-- Wire shape of the verify endpoint's JSON body
(`{isValid, invalidReason}`); also the shape of the result returned by the
delegated `verifyWithApi` call. -/
structure VerifyResponse where
  isValid : Bool
  invalidReason : Option String
deriving Repr, DecidableEq

/-- Wire shape of the settle endpoint's JSON body
(`{success, error, txHash, networkId}`). -/
structure SettleResponse where
  success : Bool
  error : Option String
  txHash : Option String
  networkId : Option String
deriving Repr, DecidableEq

/-- Result returned by the delegated `settleWithApi` call:
`{success, txHash, message}`. -/
structure SettleResult where
  success : Bool
  txHash : String
  message : Option String
deriving Repr, DecidableEq

/-- Options object passed to `settleWithApi`. -/
structure SettleOptions where
  waitForFinalization : Bool
deriving Repr, DecidableEq

/-- The constants imported from `x402-vara/lib`: supported protocol version,
supported scheme, and the fixed list of valid Vara network identifiers. -/
structure Config where
  X402_VERSION : Int
  X402_SCHEME : String
  validVaraNetworks : List String

/-- External collaborators and fallible platform decoding steps.
`Except.error m` models the JavaScript call throwing an error whose
`.message` is `m`; for the two decoding steps `none` models a throw (the
handlers catch those two locally, so the thrown message is never observed
and is not modelled). -/
structure Env where
  b64decode : String → Option String
  jsonParse : String → Option PaymentPayload
  useApi : String → Except String Unit
  balanceOf : String → String → Except String Int
  verifyWithApi : PaymentPayload → Except String VerifyResponse
  settleWithApi : PaymentPayload → SettleOptions → Except String SettleResult

/-- External calls a handler run may perform, in order. -/
inductive CallEvent where
  | useApiCall
  | b64decodeCall
  | balanceOfCall
  | verifyCall
  | settleCall
deriving Repr, DecidableEq

/-- HTTP response of the verify endpoint: status code, JSON body, and
whether the `X-Verification-Time` header was attached. -/
structure VerifyHttp where
  status : Nat
  body : VerifyResponse
  xVerificationTime : Bool
deriving Repr, DecidableEq

/-- HTTP response of the settle endpoint: status code, JSON body, and
whether the `X-Settlement-Time` header was attached. -/
structure SettleHttp where
  status : Nat
  body : SettleResponse
  xSettlementTime : Bool
deriving Repr, DecidableEq

/-- JavaScript template interpolation of a possibly-absent number:
`undefined` renders as the string `"undefined"`. -/
def renderOptInt : Option Int → String
  | none => "undefined"
  | some n => toString n

/-- `pat` is a leading run of `l` (character-list prefix test). -/
def charsStartWith : List Char → List Char → Bool
  | _, [] => true
  | [], _ :: _ => false
  | c :: cs, p :: ps => c == p && charsStartWith cs ps

/-- `pat` occurs as a contiguous run inside the second list. -/
def charsContain (pat : List Char) : List Char → Bool
  | [] => charsStartWith [] pat
  | c :: tl => charsStartWith (c :: tl) pat || charsContain pat tl

/-- JavaScript `String.prototype.includes`: `pat` occurs as a substring of
`s`. -/
def jsIncludes (s pat : String) : Bool :=
  charsContain pat.toList s.toList

/-- The settle endpoint's duplicate-transaction sniff on a caught error
message (`error.message?.includes(...)` over the three known substrings). -/
def isDupError (msg : String) : Bool :=
  jsIncludes msg "SEQUENCE_NUMBER_TOO_OLD" ||
  jsIncludes msg "INVALID_SEQ_NUMBER" ||
  jsIncludes msg "already submitted"

/-- Value of a nonempty all-decimal-digit character list; `none` if any
character is not a digit. -/
def decDigitsVal (l : List Char) : Option Nat :=
  l.foldl
    (fun acc c =>
      match acc with
      | none => none
      | some n => if c.isDigit then some (n * 10 + (c.toNat - 48)) else none)
    (some 0)

/-- Whitespace characters stripped by `BigInt(string)`. -/
def isWsChar (c : Char) : Bool :=
  c == ' ' || c == '\t' || c == '\n' || c == '\r'

/-- Drop leading whitespace characters. -/
def dropWs : List Char → List Char
  | [] => []
  | c :: tl => if isWsChar c then dropWs tl else c :: tl

/-- Strip whitespace from both ends of a character list. -/
def trimChars (l : List Char) : List Char :=
  (dropWs ((dropWs l).reverse)).reverse

/-- JavaScript `BigInt(string)` on the forms the repository exercises:
trims whitespace, an empty trimmed string is `0`, otherwise an optional
sign followed by decimal digits; `none` models the `SyntaxError` throw on
any other input.  (The `0x`/`0o`/`0b` radix forms `BigInt` also accepts
are not modelled; no claim and no repository input uses them.) -/
def jsBigIntOfString (s : String) : Option Int :=
  match trimChars s.toList with
  | [] => some 0
  | '-' :: rest =>
    if rest = [] then none else (decDigitsVal rest).map (fun n => -(n : Int))
  | '+' :: rest =>
    if rest = [] then none else (decDigitsVal rest).map (fun n => (n : Int))
  | l => (decDigitsVal l).map (fun n => (n : Int))

/-- Message of the `TypeError` thrown when reading property `f` of
`undefined`.  (The exact V8 wording is immaterial: no claim inspects the
text of a 500-path message, only that the fault path was taken.) -/
def typeErrorRead (f : String) : String :=
  "TypeError: Cannot read properties of undefined: " ++ f

/-- The verify endpoint's outer `catch`: any error thrown inside the `try`
becomes HTTP 500 with `invalidReason` the error message. -/
def verifyCatch (msg : String) : VerifyHttp :=
  ⟨500, ⟨false, some msg⟩, false⟩

/-- The settle endpoint's outer `catch`: a caught error whose message
matches the duplicate-transaction sniff becomes HTTP 409 with the fixed
masked body; any other caught error becomes HTTP 500 with the raw
message. -/
def settleCatch (msg : String) : SettleHttp :=
  if isDupError msg then
    ⟨409, ⟨false, some "Transaction already used", none, none⟩, false⟩
  else
    ⟨500, ⟨false, some msg, none, none⟩, false⟩

/-- Shallow embedding of `POST /api/facilitator/verify`
(`src/lib/varaVerify.ts` lines 26–233).  Gates in source order:

1. the initial `console.log` dereferences `paymentRequirements.scheme`
   etc.; when `paymentRequirements` is absent this throws a `TypeError`
   which the outer `catch` turns into HTTP 500;
2. `x402Version !== X402_VERSION` → 200 `"Unsupported x402 version: v"`;
3. `!paymentHeader || !paymentRequirements` → 400 missing-fields (by gate 1
   `paymentRequirements` is present here, so only the header conjunct can
   fire: absent or empty-string header);
4. `paymentRequirements.scheme !== X402_SCHEME` → 200 unsupported scheme;
5. `!network || !validVaraNetworks.includes(network)` → 200 invalid network;
6. `await useApi(network)` (may throw → catch path);
7. base64 decode failure → 200 `"Invalid base64 encoding in X-PAYMENT
   header"`; JSON parse failure → 200 `"Invalid JSON in payment payload"`;
8. scheme / network / asset mismatch between payload and requirements;
9. `BigInt(maxAmountRequired)` (throws on a non-numeric string), then
   `balanceOf(api, payload.payload.transaction.address, payload.asset)` —
   reading `.transaction` of an absent `payload`, or `.address` of an
   absent `transaction`, throws before the presence gate;
10. `balance < amount` → 200 insufficient balance with both numbers
    rendered in exact decimal;
11. `!signature || !transaction` → 200 missing signature/transaction
    (`transaction` is non-null here, its `.address` was just read);
12. `verifyWithApi(api)(paymentPayload)`: invalid → 200 with the delegate's
    reason; valid → 200 `{isValid: true, invalidReason: null}` with the
    `X-Verification-Time` header set. -/
def verifyPOST (cfg : Config) (env : Env) (body : RequestBody) :
    VerifyHttp × List CallEvent :=
  match body.paymentRequirements with
  | none => (verifyCatch (typeErrorRead "scheme"), [])
  | some req =>
    if body.x402Version ≠ some cfg.X402_VERSION then
      (⟨200, ⟨false, some ("Unsupported x402 version: " ++
        renderOptInt body.x402Version)⟩, false⟩, [])
    else if body.paymentHeader = none ∨ body.paymentHeader = some "" then
      (⟨400, ⟨false, some "Missing paymentHeader or paymentRequirements"⟩,
        false⟩, [])
    else if req.scheme ≠ cfg.X402_SCHEME then
      (⟨200, ⟨false, some ("Unsupported scheme: " ++ req.scheme)⟩, false⟩, [])
    else if req.network = "" ∨ req.network ∉ cfg.validVaraNetworks then
      (⟨200, ⟨false, some ("Invalid Vara network: " ++ req.network ++
        ". Expected one of " ++
        String.intercalate "," cfg.validVaraNetworks)⟩, false⟩, [])
    else
      match env.useApi req.network with
      | .error e => (verifyCatch e, [.useApiCall])
      | .ok _ =>
        match env.b64decode (body.paymentHeader.getD "") with
        | none =>
          (⟨200, ⟨false, some "Invalid base64 encoding in X-PAYMENT header"⟩,
            false⟩, [.useApiCall, .b64decodeCall])
        | some payloadJson =>
          match env.jsonParse payloadJson with
          | none =>
            (⟨200, ⟨false, some "Invalid JSON in payment payload"⟩, false⟩,
              [.useApiCall, .b64decodeCall])
          | some pp =>
            if pp.scheme ≠ req.scheme then
              (⟨200, ⟨false, some ("Scheme mismatch: expected " ++
                req.scheme ++ ", got " ++ pp.scheme)⟩, false⟩,
                [.useApiCall, .b64decodeCall])
            else if pp.network ≠ req.network then
              (⟨200, ⟨false, some ("Network mismatch: expected " ++
                req.network ++ ", got " ++ pp.network)⟩, false⟩,
                [.useApiCall, .b64decodeCall])
            else if pp.asset ≠ req.asset then
              (⟨200, ⟨false, some ("Asset mismatch: expected " ++
                req.asset ++ ", got " ++ pp.asset)⟩, false⟩,
                [.useApiCall, .b64decodeCall])
            else
              match jsBigIntOfString req.maxAmountRequired with
              | none =>
                (verifyCatch ("Cannot convert " ++ req.maxAmountRequired ++
                  " to a BigInt"), [.useApiCall, .b64decodeCall])
              | some amount =>
                match pp.payload with
                | none =>
                  (verifyCatch (typeErrorRead "transaction"),
                    [.useApiCall, .b64decodeCall])
                | some inner =>
                  match inner.transaction with
                  | none =>
                    (verifyCatch (typeErrorRead "address"),
                      [.useApiCall, .b64decodeCall])
                  | some tx =>
                    match env.balanceOf tx.address pp.asset with
                    | .error e =>
                      (verifyCatch e,
                        [.useApiCall, .b64decodeCall, .balanceOfCall])
                    | .ok balance =>
                      if balance < amount then
                        (⟨200, ⟨false, some
                          ("Insufficient asset balance: expected " ++
                            toString amount ++ ", got " ++
                            toString balance)⟩, false⟩,
                          [.useApiCall, .b64decodeCall, .balanceOfCall])
                      else if (inner.signature = none ∨
                          inner.signature = some "") ∨
                          inner.transaction = none then
                        (⟨200, ⟨false, some
                          "Invalid payload: missing signature or transaction"⟩,
                          false⟩,
                          [.useApiCall, .b64decodeCall, .balanceOfCall])
                      else
                        match env.verifyWithApi pp with
                        | .error e =>
                          (verifyCatch e,
                            [.useApiCall, .b64decodeCall, .balanceOfCall,
                              .verifyCall])
                        | .ok result =>
                          if result.isValid = false then
                            (⟨200, ⟨false, result.invalidReason⟩, false⟩,
                              [.useApiCall, .b64decodeCall, .balanceOfCall,
                                .verifyCall])
                          else
                            (⟨200, ⟨true, none⟩, true⟩,
                              [.useApiCall, .b64decodeCall, .balanceOfCall,
                                .verifyCall])

/-- Shallow embedding of `POST /api/facilitator/settle`
(`src/lib/varaVerify.ts` lines 258–487).  Same gate order as verify except:
no asset-mismatch gate, no balance gate; the `payload.signature` read
throws only when `payload` itself is absent; the base64-failure branch
returns the copy-pasted `Invalid Vara network` message (source line 342);
every caught error goes through the duplicate-transaction sniff
(`settleCatch`); the delegate is `settleWithApi(api)(paymentPayload,
{waitForFinalization: false})`; success responds
`{success: true, error: null, txHash: result.txHash, networkId: network}`
with the `X-Settlement-Time` header set. -/
def settlePOST (cfg : Config) (env : Env) (body : RequestBody) :
    SettleHttp × List CallEvent :=
  match body.paymentRequirements with
  | none => (settleCatch (typeErrorRead "scheme"), [])
  | some req =>
    if body.x402Version ≠ some cfg.X402_VERSION then
      (⟨200, ⟨false, some ("Unsupported x402 version: " ++
        renderOptInt body.x402Version), none, none⟩, false⟩, [])
    else if body.paymentHeader = none ∨ body.paymentHeader = some "" then
      (⟨400, ⟨false, some "Missing paymentHeader or paymentRequirements",
        none, none⟩, false⟩, [])
    else if req.scheme ≠ cfg.X402_SCHEME then
      (⟨200, ⟨false, some ("Unsupported scheme: " ++ req.scheme), none,
        none⟩, false⟩, [])
    else if req.network = "" ∨ req.network ∉ cfg.validVaraNetworks then
      (⟨200, ⟨false, some ("Invalid Vara network: " ++ req.network ++
        ". Expected one of " ++
        String.intercalate "," cfg.validVaraNetworks), none, none⟩,
        false⟩, [])
    else
      match env.useApi req.network with
      | .error e => (settleCatch e, [.useApiCall])
      | .ok _ =>
        match env.b64decode (body.paymentHeader.getD "") with
        | none =>
          (⟨200, ⟨false, some ("Invalid Vara network: " ++ req.network ++
            ". Expected one of " ++
            String.intercalate "," cfg.validVaraNetworks), none, none⟩,
            false⟩, [.useApiCall, .b64decodeCall])
        | some payloadJson =>
          match env.jsonParse payloadJson with
          | none =>
            (⟨200, ⟨false, some "Invalid JSON in payment payload", none,
              none⟩, false⟩, [.useApiCall, .b64decodeCall])
          | some pp =>
            if pp.scheme ≠ req.scheme then
              (⟨200, ⟨false, some ("Scheme mismatch: expected " ++
                req.scheme ++ ", got " ++ pp.scheme), none, none⟩, false⟩,
                [.useApiCall, .b64decodeCall])
            else if pp.network ≠ req.network then
              (⟨200, ⟨false, some ("Network mismatch: expected " ++
                req.network ++ ", got " ++ pp.network), none, none⟩, false⟩,
                [.useApiCall, .b64decodeCall])
            else
              match pp.payload with
              | none =>
                (settleCatch (typeErrorRead "signature"),
                  [.useApiCall, .b64decodeCall])
              | some inner =>
                if (inner.signature = none ∨ inner.signature = some "") ∨
                    inner.transaction = none then
                  (⟨200, ⟨false, some
                    "Invalid payload: missing signature or transaction",
                    none, none⟩, false⟩, [.useApiCall, .b64decodeCall])
                else
                  match env.settleWithApi pp ⟨false⟩ with
                  | .error e =>
                    (settleCatch e,
                      [.useApiCall, .b64decodeCall, .settleCall])
                  | .ok result =>
                    if result.success = false then
                      (⟨200, ⟨false, result.message, none, none⟩, false⟩,
                        [.useApiCall, .b64decodeCall, .settleCall])
                    else
                      (⟨200, ⟨true, none, some result.txHash,
                        some req.network⟩, true⟩,
                        [.useApiCall, .b64decodeCall, .settleCall])

/-! ### Concrete fixtures used by the closed theorems and witnesses -/

/-- Example configuration: supported version `1`, supported scheme
`"exact"`, valid networks `vara` and `vara-testnet`. -/
def cfgW : Config := ⟨1, "exact", ["vara", "vara-testnet"]⟩

/-- Example well-formed payment requirements matching `cfgW`. -/
def reqW : PaymentRequirements :=
  ⟨"exact", "vara", "VARA", "1000000000000", "payee-address"⟩

/-- Example transaction object. -/
def txW : Transaction := ⟨"payer-address"⟩

/-- Example fully-populated decoded payment payload matching `reqW`. -/
def ppW : PaymentPayload :=
  ⟨some 1, "exact", "vara", "VARA", some ⟨some "0xsig", some txW⟩⟩

/-- Example environment where every collaborator succeeds: decoding yields
`ppW`, the balance is ample, verification and settlement succeed. -/
def envW : Env where
  b64decode := fun _ => some "decoded-json"
  jsonParse := fun _ => some ppW
  useApi := fun _ => .ok ()
  balanceOf := fun _ _ => .ok 2000000000000
  verifyWithApi := fun _ => .ok ⟨true, none⟩
  settleWithApi := fun _ _ => .ok ⟨true, "0xfeedhash", none⟩

/-- Environment identical to `envW` except base64 decoding fails. -/
def envBadB64 : Env := { envW with b64decode := fun _ => none }

/-- Decoded payload whose inner `transaction` is absent (signature present). -/
def ppNoTx : PaymentPayload :=
  ⟨some 1, "exact", "vara", "VARA", some ⟨some "0xsig", none⟩⟩

/-- Environment identical to `envW` except decoding yields `ppNoTx`. -/
def envNoTx : Env := { envW with jsonParse := fun _ => some ppNoTx }

/-- Decoded payload whose inner `signature` is absent (transaction present). -/
def ppNoSig : PaymentPayload :=
  ⟨some 1, "exact", "vara", "VARA", some ⟨none, some txW⟩⟩

/-- Environment identical to `envW` except decoding yields `ppNoSig`. -/
def envNoSig : Env := { envW with jsonParse := fun _ => some ppNoSig }

/-- Environment identical to `envW` except the delegated settlement call
returns a failure result (not a throw) whose message is a duplicate-sequence
chain error. -/
def envDupResult : Env :=
  { envW with settleWithApi := fun _ _ => .ok ⟨false, "", some "INVALID_SEQ_NUMBER"⟩ }

/-- Environment identical to `envW` except the delegated settlement call
throws an error whose message contains a duplicate-sequence chain error. -/
def envDupThrow : Env :=
  { envW with settleWithApi := fun _ _ => .error "1010: Invalid Transaction: INVALID_SEQ_NUMBER" }

/-- Decoded payload whose scheme differs from `reqW`'s. -/
def ppMismatch : PaymentPayload :=
  ⟨some 1, "other-scheme", "vara", "VARA", some ⟨some "0xsig", some txW⟩⟩

/-- Environment identical to `envW` except decoding yields `ppMismatch`. -/
def envMismatch : Env := { envW with jsonParse := fun _ => some ppMismatch }

/-- Environment identical to `envW` except the payer's balance is only
`500000000000`, below `reqW`'s required `1000000000000`. -/
def envPoor : Env := { envW with balanceOf := fun _ _ => .ok 500000000000 }

/-- A request body that passes every gate against `cfgW`/`reqW`. -/
def bodyW : RequestBody := ⟨some 1, some "someheader", some reqW⟩

/-- A request body lacking `paymentRequirements`, with the supported
version and a non-empty header. -/
def bodyNoReq : RequestBody := ⟨some 1, some "someheader", none⟩

/-- A request body lacking `paymentRequirements`, with an unsupported
version. -/
def bodyNoReqBadVer : RequestBody := ⟨some 999, some "someheader", none⟩

/-- A request body whose `paymentHeader` is the empty string, with an
unsupported version. -/
def bodyEmptyHdrBadVer : RequestBody := ⟨some 999, some "", some reqW⟩

/-! ### Claims -/

/-- Claim C1 (refuted by the code, bug): the claim says a verify/settle body
lacking `paymentHeader` or lacking `paymentRequirements` (with the supported
`x402Version`) is rejected by the handler itself with HTTP 400 and the
message `"Missing paymentHeader or paymentRequirements"`.  For a body
lacking `paymentRequirements` the initial `console.log` dereferences
`paymentRequirements.scheme` before the missing-fields gate, so the request
faults to the HTTP 500 catch path instead: this theorem evaluates both
handlers at such a body and shows status 500 with a `TypeError` message, not
the 400 rejection.  A body lacking only `paymentHeader` does reach the 400
gate, as the last two conjuncts show. -/
theorem C1_missing_requirements_hits_500 :
    (verifyPOST cfgW envW bodyNoReq).1.status = 500 ∧
    (verifyPOST cfgW envW bodyNoReq).1.body.invalidReason ≠
      some "Missing paymentHeader or paymentRequirements" ∧
    (settlePOST cfgW envW bodyNoReq).1.status = 500 ∧
    (settlePOST cfgW envW bodyNoReq).1.body.error ≠
      some "Missing paymentHeader or paymentRequirements" ∧
    (verifyPOST cfgW envW ⟨some 1, none, some reqW⟩).1 =
      ⟨400, ⟨false, some "Missing paymentHeader or paymentRequirements"⟩,
        false⟩ ∧
    (settlePOST cfgW envW ⟨some 1, none, some reqW⟩).1 =
      ⟨400, ⟨false, some "Missing paymentHeader or paymentRequirements",
        none, none⟩, false⟩ := by
  decide

/-- Claim C6 (refuted by the code, bug): the claim says the
unsupported-version rejection is produced before any other gate, regardless
of the absence of `paymentRequirements`.  But the initial `console.log`
dereference of `paymentRequirements.scheme` precedes the version gate, so a
request with an unsupported version and no `paymentRequirements` faults to
HTTP 500 instead of producing `"Unsupported x402 version: 999"`.  The last
conjunct shows the version gate does fire (status 200, version message) when
`paymentRequirements` is present. -/
theorem C6_version_gate_preempted_by_logging_fault :
    (verifyPOST cfgW envW bodyNoReqBadVer).1.status = 500 ∧
    (verifyPOST cfgW envW bodyNoReqBadVer).1.body.invalidReason ≠
      some "Unsupported x402 version: 999" ∧
    (settlePOST cfgW envW bodyNoReqBadVer).1.status = 500 ∧
    (settlePOST cfgW envW bodyNoReqBadVer).1.body.error ≠
      some "Unsupported x402 version: 999" ∧
    (verifyPOST cfgW envW ⟨some 999, some "someheader", some reqW⟩).1 =
      ⟨200, ⟨false, some "Unsupported x402 version: 999"⟩, false⟩ := by
  decide

/-- Claim C3 (refuted by the code, bug): the claim says a base64-decoding
failure yields `"Invalid base64 encoding in X-PAYMENT header"` on both
endpoints, distinct from every other rejection message.  On the settle
endpoint the base64-failure branch returns the copy-pasted
`"Invalid Vara network: ..."` text (source line 342) — which is also not
distinct from the invalid-network rejection.  The verify endpoint does
return the documented message, and a JSON-parse failure returns
`"Invalid JSON in payment payload"` on both. -/
theorem C3_settle_base64_failure_wrong_message :
    (settlePOST cfgW envBadB64 bodyW).1.body.error =
      some "Invalid Vara network: vara. Expected one of vara,vara-testnet" ∧
    (settlePOST cfgW envBadB64 bodyW).1.body.error ≠
      some "Invalid base64 encoding in X-PAYMENT header" ∧
    (verifyPOST cfgW envBadB64 bodyW).1 =
      ⟨200, ⟨false, some "Invalid base64 encoding in X-PAYMENT header"⟩,
        false⟩ ∧
    (verifyPOST cfgW { envW with jsonParse := fun _ => none } bodyW).1 =
      ⟨200, ⟨false, some "Invalid JSON in payment payload"⟩, false⟩ ∧
    (settlePOST cfgW { envW with jsonParse := fun _ => none } bodyW).1 =
      ⟨200, ⟨false, some "Invalid JSON in payment payload", none, none⟩,
        false⟩ := by
  decide

/-- Claim C4 (refuted by the code, bug): the claim says a verify request
past the mismatch gates whose `payload.transaction` (or `payload.signature`)
is absent gets the HTTP 200 structured rejection
`"Invalid payload: missing signature or transaction"`.  But the balance
query dereferences `payload.transaction.address` before the presence gate,
so an absent `transaction` throws a `TypeError` and the request faults to
HTTP 500.  The absent-`signature` case (last conjunct) does reach the
structured rejection. -/
theorem C4_missing_transaction_faults_500 :
    (verifyPOST cfgW envNoTx bodyW).1.status = 500 ∧
    (verifyPOST cfgW envNoTx bodyW).1.body.invalidReason ≠
      some "Invalid payload: missing signature or transaction" ∧
    (verifyPOST cfgW envNoSig bodyW).1 =
      ⟨200, ⟨false, some "Invalid payload: missing signature or transaction"⟩,
        false⟩ := by
  decide

/-- Claim C2 counterexample: the claim quantifies over every settle request
where the delegated settlement capability reports an error whose message
contains a duplicate-sequence substring.  When the capability reports the
error by returning a failure result (`{success: false, message:
"INVALID_SEQ_NUMBER"}`) rather than throwing, the endpoint returns HTTP 200
with the raw, unmasked message — not 409 with `"Transaction already
used"`. -/
theorem C2_counterexample_returned_failure_not_409 :
    (settlePOST cfgW envDupResult bodyW).1.status = 200 ∧
    (settlePOST cfgW envDupResult bodyW).1.status ≠ 409 ∧
    (settlePOST cfgW envDupResult bodyW).1.body.error =
      some "INVALID_SEQ_NUMBER" ∧
    (settlePOST cfgW envDupResult bodyW).1.body.error ≠
      some "Transaction already used" := by
  decide

/-- Claim C2 (amended): for every settle request reaching the delegated
settlement call, if that call *throws* an error whose message contains
`"SEQUENCE_NUMBER_TOO_OLD"`, `"INVALID_SEQ_NUMBER"`, or
`"already submitted"`, the endpoint returns HTTP 409 with body
`{success: false, error: "Transaction already used", txHash: null,
networkId: null}`, masking the underlying chain error text.  (When the
call instead returns a failure result with such a message, the endpoint
returns HTTP 200 with the raw message — see the counterexample.) -/
theorem C2_settle_thrown_dup_maps_409
    (cfg : Config) (env : Env) (body : RequestBody)
    (req : PaymentRequirements) (h pj : String) (pp : PaymentPayload)
    (inner : PayloadInner) (s e : String)
    (hreq : body.paymentRequirements = some req)
    (hver : body.x402Version = some cfg.X402_VERSION)
    (hhdr : body.paymentHeader = some h) (hne : h ≠ "")
    (hsch : req.scheme = cfg.X402_SCHEME)
    (hnet : req.network ≠ "") (hmem : req.network ∈ cfg.validVaraNetworks)
    (hapi : env.useApi req.network = .ok ())
    (hb64 : env.b64decode h = some pj)
    (hjson : env.jsonParse pj = some pp)
    (hps : pp.scheme = req.scheme) (hpn : pp.network = req.network)
    (hpl : pp.payload = some inner)
    (hs : inner.signature = some s) (hsne : s ≠ "")
    (htx : inner.transaction ≠ none)
    (hsettle : env.settleWithApi pp ⟨false⟩ = .error e)
    (hdup : isDupError e = true) :
    (settlePOST cfg env body).1 =
      ⟨409, ⟨false, some "Transaction already used", none, none⟩, false⟩ := by
  simp [settlePOST, hreq, hver, hhdr, hne, hsch, hnet, hmem, hapi, hb64,
    hjson, hps, hpn, hpl, hs, hsne, htx, hsettle, settleCatch, hdup]

/-- Witness for the amended C2 theorem: concrete settle request whose
delegated settlement call throws a chain error containing
`"INVALID_SEQ_NUMBER"`; the endpoint answers 409 with the masked body. -/
theorem C2_settle_thrown_dup_maps_409_witness :
    (settlePOST cfgW envDupThrow bodyW).1 =
      ⟨409, ⟨false, some "Transaction already used", none, none⟩, false⟩ :=
  C2_settle_thrown_dup_maps_409 cfgW envDupThrow bodyW reqW "someheader"
    "decoded-json" ppW ⟨some "0xsig", some txW⟩ "0xsig"
    "1010: Invalid Transaction: INVALID_SEQ_NUMBER"
    rfl rfl rfl (by decide) rfl (by decide) (by decide) rfl rfl rfl rfl rfl
    rfl rfl (by decide) (by decide) rfl (by decide)

/-- Claim C9 counterexample: the claim quantifies over every request whose
`paymentHeader` is present but empty, asserting the 400 missing-fields
rejection.  A request with an unsupported `x402Version` and an empty header
is rejected by the earlier version gate instead: HTTP 200 with the
unsupported-version message, not 400. -/
theorem C9_counterexample_version_gate_first :
    (verifyPOST cfgW envW bodyEmptyHdrBadVer).1.status ≠ 400 ∧
    (verifyPOST cfgW envW bodyEmptyHdrBadVer).1.body.invalidReason ≠
      some "Missing paymentHeader or paymentRequirements" ∧
    (verifyPOST cfgW envW bodyEmptyHdrBadVer).1 =
      ⟨200, ⟨false, some "Unsupported x402 version: 999"⟩, false⟩ ∧
    (settlePOST cfgW envW bodyEmptyHdrBadVer).1.status ≠ 400 := by
  decide

/-- Claim C9 (amended): for every request with the supported `x402Version`
and a present `paymentRequirements` whose `paymentHeader` equals the empty
string, both endpoints take the `"Missing paymentHeader or
paymentRequirements"` HTTP 400 rejection — presence is tested by JavaScript
falsiness, so the empty string counts as missing — and the base64/JSON
decoder is never invoked (no `b64decodeCall` in the call trace). -/
theorem C9_empty_header_rejected_400
    (cfg : Config) (env : Env) (body : RequestBody)
    (req : PaymentRequirements)
    (hver : body.x402Version = some cfg.X402_VERSION)
    (hreq : body.paymentRequirements = some req)
    (hhdr : body.paymentHeader = some "") :
    verifyPOST cfg env body =
      (⟨400, ⟨false, some "Missing paymentHeader or paymentRequirements"⟩,
        false⟩, []) ∧
    settlePOST cfg env body =
      (⟨400, ⟨false, some "Missing paymentHeader or paymentRequirements",
        none, none⟩, false⟩, []) ∧
    CallEvent.b64decodeCall ∉ (verifyPOST cfg env body).2 ∧
    CallEvent.b64decodeCall ∉ (settlePOST cfg env body).2 := by
  refine ⟨?_, ?_, ?_, ?_⟩ <;>
    simp [verifyPOST, settlePOST, hver, hreq, hhdr]

/-- Witness for the amended C9 theorem: concrete request with supported
version, present requirements, and an empty `paymentHeader`. -/
theorem C9_empty_header_rejected_400_witness :
    verifyPOST cfgW envW ⟨some 1, some "", some reqW⟩ =
      (⟨400, ⟨false, some "Missing paymentHeader or paymentRequirements"⟩,
        false⟩, []) ∧
    settlePOST cfgW envW ⟨some 1, some "", some reqW⟩ =
      (⟨400, ⟨false, some "Missing paymentHeader or paymentRequirements",
        none, none⟩, false⟩, []) ∧
    CallEvent.b64decodeCall ∉
      (verifyPOST cfgW envW ⟨some 1, some "", some reqW⟩).2 ∧
    CallEvent.b64decodeCall ∉
      (settlePOST cfgW envW ⟨some 1, some "", some reqW⟩).2 :=
  C9_empty_header_rejected_400 cfgW envW ⟨some 1, some "", some reqW⟩ reqW
    rfl rfl rfl

/-- Claim C5 (confirmed): for every well-formed request (supported version,
fields present, supported scheme, valid network, decoding succeeded), a
payload/requirements mismatch on scheme, network, or asset — taken in the
source's gate order — produces exactly the corresponding
`"... mismatch: expected X, got Y"` failure on verify and settle (asset on
the verify path only), and the delegated `verifyWithApi`/`settleWithApi`
call does not occur (no `verifyCall`/`settleCall` in the call trace). -/
theorem C5_mismatch_gates_exact_and_no_delegate
    (cfg : Config) (env : Env) (body : RequestBody)
    (req : PaymentRequirements) (h pj : String) (pp : PaymentPayload)
    (hreq : body.paymentRequirements = some req)
    (hver : body.x402Version = some cfg.X402_VERSION)
    (hhdr : body.paymentHeader = some h) (hne : h ≠ "")
    (hsch : req.scheme = cfg.X402_SCHEME)
    (hnet : req.network ≠ "") (hmem : req.network ∈ cfg.validVaraNetworks)
    (hapi : env.useApi req.network = .ok ())
    (hb64 : env.b64decode h = some pj)
    (hjson : env.jsonParse pj = some pp) :
    (pp.scheme ≠ req.scheme →
      verifyPOST cfg env body =
        (⟨200, ⟨false, some ("Scheme mismatch: expected " ++ req.scheme ++
          ", got " ++ pp.scheme)⟩, false⟩,
          [.useApiCall, .b64decodeCall]) ∧
      settlePOST cfg env body =
        (⟨200, ⟨false, some ("Scheme mismatch: expected " ++ req.scheme ++
          ", got " ++ pp.scheme), none, none⟩, false⟩,
          [.useApiCall, .b64decodeCall])) ∧
    (pp.scheme = req.scheme → pp.network ≠ req.network →
      verifyPOST cfg env body =
        (⟨200, ⟨false, some ("Network mismatch: expected " ++ req.network ++
          ", got " ++ pp.network)⟩, false⟩,
          [.useApiCall, .b64decodeCall]) ∧
      settlePOST cfg env body =
        (⟨200, ⟨false, some ("Network mismatch: expected " ++ req.network ++
          ", got " ++ pp.network), none, none⟩, false⟩,
          [.useApiCall, .b64decodeCall])) ∧
    (pp.scheme = req.scheme → pp.network = req.network →
      pp.asset ≠ req.asset →
      verifyPOST cfg env body =
        (⟨200, ⟨false, some ("Asset mismatch: expected " ++ req.asset ++
          ", got " ++ pp.asset)⟩, false⟩,
          [.useApiCall, .b64decodeCall])) ∧
    (pp.scheme ≠ req.scheme ∨ pp.network ≠ req.network →
      CallEvent.verifyCall ∉ (verifyPOST cfg env body).2 ∧
      CallEvent.settleCall ∉ (settlePOST cfg env body).2) := by
  refine ⟨fun hmm => ?_, fun hse hmm => ?_,
    fun hse hnw hmm => ?_, fun hor => ?_⟩
  · have hmm2 : pp.scheme ≠ cfg.X402_SCHEME := by rw [← hsch]; exact hmm
    constructor <;>
      simp [verifyPOST, settlePOST, hreq, hver, hhdr, hne, hsch, hnet,
        hmem, hapi, hb64, hjson, hmm2]
  · constructor <;>
      simp [verifyPOST, settlePOST, hreq, hver, hhdr, hne, hsch, hnet,
        hmem, hapi, hb64, hjson, hse, hmm]
  · simp [verifyPOST, hreq, hver, hhdr, hne, hsch, hnet, hmem, hapi, hb64,
      hjson, hse, hnw, hmm]
  · rcases hor with hmm | hmm
    · have hmm2 : pp.scheme ≠ cfg.X402_SCHEME := by rw [← hsch]; exact hmm
      constructor <;>
        simp [verifyPOST, settlePOST, hreq, hver, hhdr, hne, hsch, hnet,
          hmem, hapi, hb64, hjson, hmm2]
    · constructor <;>
        simp [verifyPOST, settlePOST, hreq, hver, hhdr, hne, hsch, hnet,
          hmem, hapi, hb64, hjson, hmm] <;>
        (try (split <;> simp))

/-- Witness for C5: concrete verify and settle requests whose decoded
payload's scheme (`"other-scheme"`) differs from the required `"exact"`;
both endpoints answer with the exact scheme-mismatch message and the call
trace contains no delegated call. -/
theorem C5_mismatch_gates_exact_and_no_delegate_witness :
    verifyPOST cfgW envMismatch bodyW =
      (⟨200, ⟨false,
        some "Scheme mismatch: expected exact, got other-scheme"⟩, false⟩,
        [.useApiCall, .b64decodeCall]) ∧
    settlePOST cfgW envMismatch bodyW =
      (⟨200, ⟨false,
        some "Scheme mismatch: expected exact, got other-scheme", none,
        none⟩, false⟩,
        [.useApiCall, .b64decodeCall]) :=
  (C5_mismatch_gates_exact_and_no_delegate cfgW envMismatch bodyW reqW
    "someheader" "decoded-json" ppMismatch rfl rfl rfl (by decide) rfl
    (by decide) (by decide) rfl rfl rfl).1 (by decide)

/-- Claim C7 (confirmed): for every verify request reaching the balance
gate, `maxAmountRequired` is interpreted by `BigInt(string)` — embedded as
`jsBigIntOfString`, an arbitrary-precision integer reading of the decimal
string — and compared exactly (`<` on `Int`) against the queried balance;
whenever `balance < amount` the response is HTTP 200
`{isValid: false, invalidReason: "Insufficient asset balance: expected
{amount}, got {balance}"}` with both numbers rendered as exact decimal
integer strings (`toString` on `Int`). -/
theorem C7_insufficient_balance_exact
    (cfg : Config) (env : Env) (body : RequestBody)
    (req : PaymentRequirements) (h pj : String) (pp : PaymentPayload)
    (inner : PayloadInner) (tx : Transaction) (amount balance : Int)
    (hreq : body.paymentRequirements = some req)
    (hver : body.x402Version = some cfg.X402_VERSION)
    (hhdr : body.paymentHeader = some h) (hne : h ≠ "")
    (hsch : req.scheme = cfg.X402_SCHEME)
    (hnet : req.network ≠ "") (hmem : req.network ∈ cfg.validVaraNetworks)
    (hapi : env.useApi req.network = .ok ())
    (hb64 : env.b64decode h = some pj)
    (hjson : env.jsonParse pj = some pp)
    (hps : pp.scheme = req.scheme) (hpn : pp.network = req.network)
    (hpa : pp.asset = req.asset)
    (hamt : jsBigIntOfString req.maxAmountRequired = some amount)
    (hpl : pp.payload = some inner)
    (htx : inner.transaction = some tx)
    (hbal : env.balanceOf tx.address pp.asset = .ok balance)
    (hlt : balance < amount) :
    (verifyPOST cfg env body).1 =
      ⟨200, ⟨false, some ("Insufficient asset balance: expected " ++
        toString amount ++ ", got " ++ toString balance)⟩, false⟩ := by
  rw [hpa] at hbal
  simp [verifyPOST, hreq, hver, hhdr, hne, hsch, hnet, hmem, hapi, hb64,
    hjson, hps, hpn, hpa, hamt, hpl, htx, hbal, hlt]

/-- Witness for C7, the spec's Scenario 2: `maxAmountRequired`
`"1000000000000"` against an actual balance of `500000000000` yields the
insufficient-balance rejection with both numbers in exact decimal. -/
theorem C7_insufficient_balance_exact_witness :
    (verifyPOST cfgW envPoor bodyW).1 =
      ⟨200, ⟨false, some
        "Insufficient asset balance: expected 1000000000000, got 500000000000"⟩,
        false⟩ :=
  C7_insufficient_balance_exact cfgW envPoor bodyW reqW "someheader"
    "decoded-json" ppW ⟨some "0xsig", some txW⟩ txW 1000000000000
    500000000000 rfl rfl rfl (by decide) rfl (by decide) (by decide) rfl rfl
    rfl rfl rfl rfl (by decide) rfl rfl rfl (by decide)

set_option maxHeartbeats 1600000

/-- Helper: on the verify endpoint the `X-Verification-Time` header flag
always equals the body's `isValid` flag — in every branch of the handler
the header is set exactly on the success response. -/
theorem verify_header_eq_valid (cfg : Config) (env : Env)
    (b : RequestBody) :
    (verifyPOST cfg env b).1.xVerificationTime =
    (verifyPOST cfg env b).1.body.isValid := by
  unfold verifyPOST verifyCatch
  cases hreq : b.paymentRequirements with
  | none => rfl
  | some req =>
  simp only []
  by_cases h1 : b.x402Version ≠ some cfg.X402_VERSION
  · rw [if_pos h1]
  rw [if_neg h1]
  by_cases h2 : b.paymentHeader = none ∨ b.paymentHeader = some ""
  · rw [if_pos h2]
  rw [if_neg h2]
  by_cases h3 : req.scheme ≠ cfg.X402_SCHEME
  · rw [if_pos h3]
  rw [if_neg h3]
  by_cases h4 : req.network = "" ∨ req.network ∉ cfg.validVaraNetworks
  · rw [if_pos h4]
  rw [if_neg h4]
  cases hapi : env.useApi req.network with
  | error e => rfl
  | ok u =>
  simp only []
  cases hb64 : env.b64decode (b.paymentHeader.getD "") with
  | none => rfl
  | some pj =>
  simp only []
  cases hjson : env.jsonParse pj with
  | none => rfl
  | some pp =>
  simp only []
  by_cases h5 : pp.scheme ≠ req.scheme
  · rw [if_pos h5]
  rw [if_neg h5]
  by_cases h6 : pp.network ≠ req.network
  · rw [if_pos h6]
  rw [if_neg h6]
  by_cases h7 : pp.asset ≠ req.asset
  · rw [if_pos h7]
  rw [if_neg h7]
  cases hamt : jsBigIntOfString req.maxAmountRequired with
  | none => rfl
  | some amount =>
  simp only []
  cases hpl : pp.payload with
  | none => rfl
  | some inner =>
  simp only []
  cases htx : inner.transaction with
  | none => rfl
  | some tx =>
  simp only []
  cases hbal : env.balanceOf tx.address pp.asset with
  | error e => rfl
  | ok balance =>
  simp only []
  by_cases h8 : balance < amount
  · rw [if_pos h8]
  rw [if_neg h8]
  by_cases h9 : (inner.signature = none ∨ inner.signature = some "") ∨
    (some tx : Option Transaction) = none
  · rw [if_pos h9]
  rw [if_neg h9]
  cases hver : env.verifyWithApi pp with
  | error e => rfl
  | ok result =>
  simp only []
  by_cases h10 : result.isValid = false
  · rw [if_pos h10]
  rw [if_neg h10]

/-- Helper: in every branch of the settle handler, the `X-Settlement-Time`
header flag equals the body's `success` flag, and the body either reports
`success = true` or carries `txHash = null` and `networkId = null`. -/
theorem settle_shape_invariants (cfg : Config) (env : Env)
    (b : RequestBody) :
    (settlePOST cfg env b).1.xSettlementTime =
      (settlePOST cfg env b).1.body.success ∧
    ((settlePOST cfg env b).1.body.success = true ∨
      ((settlePOST cfg env b).1.body.txHash = none ∧
        (settlePOST cfg env b).1.body.networkId = none)) := by
  unfold settlePOST
  cases hreq : b.paymentRequirements with
  | none => exact ⟨rfl, Or.inr ⟨rfl, rfl⟩⟩
  | some req =>
  simp only []
  by_cases h1 : b.x402Version ≠ some cfg.X402_VERSION
  · rw [if_pos h1]; exact ⟨rfl, Or.inr ⟨rfl, rfl⟩⟩
  rw [if_neg h1]
  by_cases h2 : b.paymentHeader = none ∨ b.paymentHeader = some ""
  · rw [if_pos h2]; exact ⟨rfl, Or.inr ⟨rfl, rfl⟩⟩
  rw [if_neg h2]
  by_cases h3 : req.scheme ≠ cfg.X402_SCHEME
  · rw [if_pos h3]; exact ⟨rfl, Or.inr ⟨rfl, rfl⟩⟩
  rw [if_neg h3]
  by_cases h4 : req.network = "" ∨ req.network ∉ cfg.validVaraNetworks
  · rw [if_pos h4]; exact ⟨rfl, Or.inr ⟨rfl, rfl⟩⟩
  rw [if_neg h4]
  cases hapi : env.useApi req.network with
  | error e =>
    refine ⟨?_, ?_⟩ <;> simp only [settleCatch] <;> split <;>
      first
      | rfl
      | exact Or.inr ⟨rfl, rfl⟩
  | ok u =>
  simp only []
  cases hb64 : env.b64decode (b.paymentHeader.getD "") with
  | none => exact ⟨rfl, Or.inr ⟨rfl, rfl⟩⟩
  | some pj =>
  simp only []
  cases hjson : env.jsonParse pj with
  | none => exact ⟨rfl, Or.inr ⟨rfl, rfl⟩⟩
  | some pp =>
  simp only []
  by_cases h5 : pp.scheme ≠ req.scheme
  · rw [if_pos h5]; exact ⟨rfl, Or.inr ⟨rfl, rfl⟩⟩
  rw [if_neg h5]
  by_cases h6 : pp.network ≠ req.network
  · rw [if_pos h6]; exact ⟨rfl, Or.inr ⟨rfl, rfl⟩⟩
  rw [if_neg h6]
  cases hpl : pp.payload with
  | none => exact ⟨rfl, Or.inr ⟨rfl, rfl⟩⟩
  | some inner =>
  simp only []
  by_cases h7 : (inner.signature = none ∨ inner.signature = some "") ∨
    inner.transaction = none
  · rw [if_pos h7]; exact ⟨rfl, Or.inr ⟨rfl, rfl⟩⟩
  rw [if_neg h7]
  cases hset : env.settleWithApi pp ⟨false⟩ with
  | error e =>
    refine ⟨?_, ?_⟩ <;> simp only [settleCatch] <;> split <;>
      first
      | rfl
      | exact Or.inr ⟨rfl, rfl⟩
  | ok result =>
  simp only []
  by_cases h8 : result.success = false
  · rw [if_pos h8]; exact ⟨rfl, Or.inr ⟨rfl, rfl⟩⟩
  rw [if_neg h8]
  exact ⟨rfl, Or.inl rfl⟩

set_option maxHeartbeats 200000

/-- Claim C8 (confirmed): for every verify request that passes all gates
and whose delegated verification returns valid, the response is exactly
HTTP 200 `{isValid: true, invalidReason: null}` with the
`X-Verification-Time` header set; moreover, on both endpoints the
elapsed-time header (`X-Verification-Time` / `X-Settlement-Time`) is
attached on the success path only — any response carrying it has
`isValid = true` / `success = true`, so no rejection or error response
carries it. -/
theorem C8_success_shape_and_header_only_on_success
    (cfg : Config) (env : Env) (body : RequestBody)
    (req : PaymentRequirements) (h pj : String) (pp : PaymentPayload)
    (inner : PayloadInner) (tx : Transaction) (amount balance : Int)
    (s : String) (result : VerifyResponse)
    (hreq : body.paymentRequirements = some req)
    (hver : body.x402Version = some cfg.X402_VERSION)
    (hhdr : body.paymentHeader = some h) (hne : h ≠ "")
    (hsch : req.scheme = cfg.X402_SCHEME)
    (hnet : req.network ≠ "") (hmem : req.network ∈ cfg.validVaraNetworks)
    (hapi : env.useApi req.network = .ok ())
    (hb64 : env.b64decode h = some pj)
    (hjson : env.jsonParse pj = some pp)
    (hps : pp.scheme = req.scheme) (hpn : pp.network = req.network)
    (hpa : pp.asset = req.asset)
    (hamt : jsBigIntOfString req.maxAmountRequired = some amount)
    (hpl : pp.payload = some inner)
    (htx : inner.transaction = some tx)
    (hbal : env.balanceOf tx.address pp.asset = .ok balance)
    (hge : ¬ balance < amount)
    (hs : inner.signature = some s) (hsne : s ≠ "")
    (hverify : env.verifyWithApi pp = .ok result)
    (hr : result.isValid = true) :
    (verifyPOST cfg env body).1 = ⟨200, ⟨true, none⟩, true⟩ ∧
    (∀ (cfg2 : Config) (env2 : Env) (b2 : RequestBody),
      (verifyPOST cfg2 env2 b2).1.xVerificationTime = true →
      (verifyPOST cfg2 env2 b2).1.body.isValid = true) ∧
    (∀ (cfg2 : Config) (env2 : Env) (b2 : RequestBody),
      (settlePOST cfg2 env2 b2).1.xSettlementTime = true →
      (settlePOST cfg2 env2 b2).1.body.success = true) := by
  refine ⟨?_,
    fun c2 e2 b2 hh => (verify_header_eq_valid c2 e2 b2).symm.trans hh,
    fun c2 e2 b2 hh => ((settle_shape_invariants c2 e2 b2).1).symm.trans hh⟩
  rw [hpa] at hbal
  simp [verifyPOST, hreq, hver, hhdr, hne, hsch, hnet, hmem, hapi, hb64,
    hjson, hps, hpn, hpa, hamt, hpl, htx, hbal, hge, hs, hsne, hverify, hr]

/-- Witness for C8, the spec's Scenario 1: a fully valid verify request
against an ample balance answers `{isValid: true, invalidReason: null}`
with the `X-Verification-Time` header present. -/
theorem C8_success_shape_and_header_only_on_success_witness :
    (verifyPOST cfgW envW bodyW).1 = ⟨200, ⟨true, none⟩, true⟩ :=
  (C8_success_shape_and_header_only_on_success cfgW envW bodyW reqW
    "someheader" "decoded-json" ppW ⟨some "0xsig", some txW⟩ txW
    1000000000000 2000000000000 "0xsig" ⟨true, none⟩ rfl rfl rfl (by decide)
    rfl (by decide) (by decide) rfl rfl rfl rfl rfl rfl (by decide) rfl rfl
    rfl (by decide) rfl (by decide) rfl rfl).1

/-- Claim C10 (confirmed): every successful settle response carries
`networkId` equal to the request's `paymentRequirements.network`, `txHash`
equal to the hash returned by the delegated settlement call, and
`error = null`; and every settle response with `success = false` carries
`txHash = null` and `networkId = null`. -/
theorem C10_settle_success_fields_and_failure_nulls
    (cfg : Config) (env : Env) (body : RequestBody)
    (req : PaymentRequirements) (h pj : String) (pp : PaymentPayload)
    (inner : PayloadInner) (s : String) (result : SettleResult)
    (hreq : body.paymentRequirements = some req)
    (hver : body.x402Version = some cfg.X402_VERSION)
    (hhdr : body.paymentHeader = some h) (hne : h ≠ "")
    (hsch : req.scheme = cfg.X402_SCHEME)
    (hnet : req.network ≠ "") (hmem : req.network ∈ cfg.validVaraNetworks)
    (hapi : env.useApi req.network = .ok ())
    (hb64 : env.b64decode h = some pj)
    (hjson : env.jsonParse pj = some pp)
    (hps : pp.scheme = req.scheme) (hpn : pp.network = req.network)
    (hpl : pp.payload = some inner)
    (hs : inner.signature = some s) (hsne : s ≠ "")
    (htx : inner.transaction ≠ none)
    (hsettle : env.settleWithApi pp ⟨false⟩ = .ok result)
    (hrs : result.success = true) :
    (settlePOST cfg env body).1 =
      ⟨200, ⟨true, none, some result.txHash, some req.network⟩, true⟩ ∧
    (∀ (cfg2 : Config) (env2 : Env) (b2 : RequestBody),
      (settlePOST cfg2 env2 b2).1.body.success = false →
      (settlePOST cfg2 env2 b2).1.body.txHash = none ∧
      (settlePOST cfg2 env2 b2).1.body.networkId = none) := by
  refine ⟨?_, fun c2 e2 b2 hs2 => ?_⟩
  · simp [settlePOST, hreq, hver, hhdr, hne, hsch, hnet, hmem, hapi, hb64,
      hjson, hps, hpn, hpl, hs, hsne, htx, hsettle, hrs]
  · rcases (settle_shape_invariants c2 e2 b2).2 with ht | hn
    · exact Bool.noConfusion (hs2.symm.trans ht)
    · exact hn

/-- Witness for C10: a fully valid settle request against `envW` answers
`{success: true, error: null, txHash: "0xfeedhash", networkId: "vara"}`. -/
theorem C10_settle_success_fields_and_failure_nulls_witness :
    (settlePOST cfgW envW bodyW).1 =
      ⟨200, ⟨true, none, some "0xfeedhash", some "vara"⟩, true⟩ :=
  (C10_settle_success_fields_and_failure_nulls cfgW envW bodyW reqW
    "someheader" "decoded-json" ppW ⟨some "0xsig", some txW⟩ "0xsig"
    ⟨true, "0xfeedhash", none⟩ rfl rfl rfl (by decide) rfl (by decide)
    (by decide) rfl rfl rfl rfl rfl rfl rfl (by decide) (by decide) rfl
    rfl).1

end X402Vara
